import Mathlib

/-!
# Verification of `kodo/platform/linux/window.cc` (X11 / XEmbed plugin window host)

Shallow embedding of the `X11Window::Impl` state machine from
`src/kodo/platform/linux/window.cc`.  X11 windows and atoms are modelled as
natural numbers (`0` plays the role of `None`); the side effects issued to the
X server, the run loop and the window controller are recorded as an explicit
trace of `Action`s; the results the environment returns to the code (window
property reads, atom interning, `constrainSize` callbacks, fresh window ids)
are supplied by an `Env` record; `exit(-1)`, a failed `assert` and a
dereference of a null `xembedInfo` pointer are all modelled as a `crash`
outcome carrying the trace emitted so far.
-/

namespace Kodo

/-- Structure `EditorHost::Size` (two C `int` fields). -/
structure Size where
  width : Int
  height : Int
  deriving DecidableEq, Repr

/-- Structure `X11Window::Impl::XEmbedInfo`: the `_XEMBED_INFO` window property
(two `uint32_t` fields). -/
structure XEmbedInfo where
  version : Nat
  flags : Nat
  deriving DecidableEq, Repr

/-- XEMBED message opcodes, from the `#define`s in `window.cc`. -/
def XEMBED_EMBEDDED_NOTIFY : Nat := 0

def XEMBED_WINDOW_ACTIVATE : Nat := 1

def XEMBED_WINDOW_DEACTIVATE : Nat := 2

def XEMBED_REQUEST_FOCUS : Nat := 3

def XEMBED_FOCUS_IN : Nat := 4

def XEMBED_FOCUS_OUT : Nat := 5

/-- The mapped flag: `#define XEMBED_MAPPED (1 << 0)`. -/
def XEMBED_MAPPED : Nat := 1

/-- VST3 `tresult` codes used by the file (non-COM variant of `funknown.h`). -/
def kResultTrue : Int := 0

def kResultFalse : Int := 1

def kInvalidArgument : Int := 2

def kNotImplemented : Int := 3

/-- One observable side effect of the code: a call into Xlib, the run loop
(`RunLoop::instance()`), or the window controller.  `reparentWindow` is
`XReparentWindow`, part of the Xlib vocabulary available to the code; it is
listed so that its absence from a trace is a meaningful statement. -/
inductive Action where
  /-- Call `send_xembed_message (dpy, w, messageType, message, detail, data1, data2)`. -/
  | sendXEmbed (w : Nat) (messageType : Nat) (message : Nat) (detail : Nat)
      (data1 : Nat) (data2 : Nat)
  /-- Call `XCreateWindow` returning window `w` with parent `parent`. -/
  | createWindow (w : Nat) (parent : Nat)
  /-- Call `XReparentWindow (dpy, w, parent, ...)` — never issued by this code. -/
  | reparentWindow (w : Nat) (parent : Nat)
  /-- Call `XMapWindow`. -/
  | mapWindow (w : Nat)
  /-- Call `XUnmapWindow`. -/
  | unmapWindow (w : Nat)
  /-- Call `XResizeWindow`. -/
  | resizeWindow (w : Nat) (width : Int) (height : Int)
  /-- Call `XDestroyWindow`. -/
  | destroyWindow (w : Nat)
  /-- Call `XSelectInput`. -/
  | selectInput (w : Nat)
  /-- Title, icon name, WM hints, WM protocols and graphic-context setup on `w`
  (`XSetWMNormalHints`/`XStoreName`/`XSetWMIconName`/`XSetWMProtocols`/`XCreateGC`/...). -/
  | setupWindowProperties (w : Nat)
  /-- Call `XClearWindow`. -/
  | clearWindow (w : Nat)
  /-- Call `XFillRectangle` over `width × height`. -/
  | fillRectangle (w : Nat) (width : Int) (height : Int)
  /-- Call `XFreeGC`. -/
  | freeGC
  /-- Call `XGetWindowProperty` for `_XEMBED_INFO` on `w` (in `getXEmbedInfo`). -/
  | readXEmbedInfoProp (w : Nat)
  /-- Call `RunLoop::instance().registerWindow (w, ...)`. -/
  | registerWindowRunLoop (w : Nat)
  /-- Call `RunLoop::instance().registerFileDescriptor (fd, ...)`. -/
  | registerFDRunLoop (fd : Nat)
  /-- Call `RunLoop::instance().unregisterFileDescriptor (fd)`. -/
  | unregisterFDRunLoop (fd : Nat)
  /-- Call `RunLoop::instance().registerTimer (milliseconds, ...)`. -/
  | registerTimerRunLoop (milliseconds : Nat)
  /-- Call `RunLoop::instance().unregisterTimer (id)`. -/
  | unregisterTimerRunLoop (id : Nat)
  /-- Callback `controller->onShow (*x11Window)`. -/
  | onShowCb
  /-- Callback `controller->onClose (*x11Window)`. -/
  | onCloseCb
  /-- Callback `controller->onResize (*x11Window, size)`. -/
  | onResizeCb (size : Size)
  /-- Callback `windowClosedFunc (x11Window)`. -/
  | windowClosedCb
  deriving DecidableEq, Repr

/-- The mutable fields of `X11Window::Impl` used by the handlers.  Windows and
atoms are `Nat`, with `0` standing for X11 `None`; `xembedInfo` is an owning
`Option` for the C pointer; the two `std::unordered_map`s are association
lists `key ↦ handler id`, a handler pointer being `some id` (non-null) or
`none` (null). -/
structure ImplState where
  xembedInfo : Option XEmbedInfo
  xWindow : Nat
  plugParentWindow : Nat
  plugWindow : Nat
  xEmbedInfoAtom : Nat
  xEmbedAtom : Nat
  isMapped : Bool
  mCurrentSize : Size
  hasWindowClosedFunc : Bool
  eventHandlers : List (Nat × Nat)
  timerHandlers : List (Nat × Nat)
  deriving DecidableEq, Repr

/-- The member initializers of `X11Window::Impl` (all windows/atoms `None`,
null `xembedInfo`, `isMapped = false`, empty handler maps). -/
def ImplState.initial : ImplState :=
  { xembedInfo := none
    xWindow := 0
    plugParentWindow := 0
    plugWindow := 0
    xEmbedInfoAtom := 0
    xEmbedAtom := 0
    isMapped := false
    mCurrentSize := ⟨0, 0⟩
    hasWindowClosedFunc := false
    eventHandlers := []
    timerHandlers := [] }

/-- What the environment (X server, controller, run loop) answers to the
code's queries.  `getProp w` is the `_XEMBED_INFO` property of window `w`
(`none` when `XGetWindowProperty` fails or yields no data); the two atom
values are what `XInternAtom (..., only_if_exists = true)` returns, `0` for
`None`. -/
structure Env where
  getProp : Nat → Option XEmbedInfo
  constrainSize : Size → Size
  xEmbedInfoAtomValue : Nat
  xEmbedAtomValue : Nat
  visualMatch : Bool
  rootWindow : Nat
  xWindowId : Nat
  plugParentWindowId : Nat

/-- Outcome of running one event handler: the C function returns `res` after
mutating the object and issuing calls (`ok`), or the process dies inside it
(`exit(-1)`, failed `assert`, or dereferencing the null `xembedInfo`),
modelled as `crash` with the calls issued before death. -/
inductive HandlerResult where
  | ok (s : ImplState) (trace : List Action) (res : Bool)
  | crash (trace : List Action)
  deriving DecidableEq, Repr

/-- An `XEvent`, restricted to the fields the two handlers read.
`clientMessage` carries `xclient.message_type` and `xclient.data.l[1]`
(the XEMBED opcode slot); `createNotify` carries `xcreatewindow.parent`
and `xcreatewindow.window`. -/
inductive XEvent where
  | expose (window : Nat) (count : Nat)
  | configureNotify (window : Nat) (width : Int) (height : Int)
  | mapNotify (window : Nat)
  | unmapNotify (window : Nat)
  | destroyNotify (window : Nat)
  | clientMessage (window : Nat) (messageType : Nat) (l1 : Nat)
  | focusIn (window : Nat)
  | focusOut (window : Nat)
  | resizeRequest (window : Nat) (width : Int) (height : Int)
  | propertyNotify (window : Nat) (atom : Nat)
  | createNotify (parent : Nat) (window : Nat)
  deriving DecidableEq, Repr

/-- Method `X11Window::Impl::resize (newSize, force)`: skip when not forced and the
size is unchanged; otherwise `XResizeWindow` the main window and the plug
parent window (each only when non-`None`) and store `mCurrentSize`. -/
def ImplState.resize (s : ImplState) (newSize : Size) (force : Bool) :
    ImplState × List Action :=
  if !force && s.mCurrentSize == newSize then (s, [])
  else
    ({ s with mCurrentSize := newSize },
      (if s.xWindow ≠ 0 then
        [Action.resizeWindow s.xWindow newSize.width newSize.height] else [])
      ++
      (if s.plugParentWindow ≠ 0 then
        [Action.resizeWindow s.plugParentWindow newSize.width newSize.height]
       else []))

/-- Method `X11Window::Impl::onClose`: free the GC, destroy the main window, null out
the display and window, clear `isMapped`, and invoke `windowClosedFunc` when
it is set. -/
def ImplState.onClose (s : ImplState) : ImplState × List Action :=
  ({ s with xWindow := 0, isMapped := false },
    [Action.freeGC, Action.destroyWindow s.xWindow]
      ++ (if s.hasWindowClosedFunc then [Action.windowClosedCb] else []))

/-- Method `X11Window::Impl::getXEmbedInfo`: re-intern `_XEMBED_INFO` when the cached
atom is `None`, then `XGetWindowProperty` on `plugWindow`; the read fails
(returns null) when the atom is still `None`, otherwise the environment
supplies the property. -/
def ImplState.getXEmbedInfo (env : Env) (s : ImplState) :
    ImplState × List Action × Option XEmbedInfo :=
  let s' := if s.xEmbedInfoAtom = 0 then
      { s with xEmbedInfoAtom := env.xEmbedInfoAtomValue } else s
  (s', [Action.readXEmbedInfoProp s'.plugWindow],
    if s'.xEmbedInfoAtom = 0 then none else env.getProp s'.plugWindow)

/-- Method `X11Window::Impl::handleMainWindowEvent`, case by case from the `switch`
in `window.cc`.  Event types absent from the `switch` (and `DestroyNotify`,
whose case is empty) leave the state alone and return `false`. -/
def handleMainWindowEvent (env : Env) (s : ImplState) :
    XEvent → HandlerResult
  | .expose _ count =>
      .ok s
        (if count = 0 then
          [Action.clearWindow s.xWindow,
           Action.fillRectangle s.xWindow s.mCurrentSize.width
             s.mCurrentSize.height]
         else []) true
  | .configureNotify w width height =>
      if w ≠ s.xWindow then .ok s [] false
      else
        let size : Size := ⟨width, height⟩
        if s.mCurrentSize ≠ size then
          let constraintSize := env.constrainSize size
          let s1 := if constraintSize ≠ s.mCurrentSize then
              { s with mCurrentSize := size } else s
          let t1 : List Action := if constraintSize ≠ s.mCurrentSize then
              [Action.onResizeCb size] else []
          if constraintSize ≠ size then
            let r := s1.resize constraintSize true
            .ok r.1 (t1 ++ r.2) true
          else
            .ok s1
              (t1 ++
                (if s1.plugParentWindow ≠ 0 then
                  [Action.resizeWindow s1.plugParentWindow size.width
                    size.height]
                 else [])) true
        else .ok s [] true
  | .mapNotify w =>
      if w = s.xWindow ∧ ¬s.isMapped then
        .ok { s with isMapped := true } [Action.onShowCb] true
      else .ok s [] false
  | .unmapNotify w =>
      if w = s.xWindow then
        .ok s.onClose.1 (Action.onCloseCb :: s.onClose.2) true
      else .ok s [] false
  | .destroyNotify _ => .ok s [] false
  | .clientMessage w _ _ =>
      if w = s.xWindow then
        .ok s.onClose.1 (Action.onCloseCb :: s.onClose.2) true
      else .ok s [] false
  | .focusIn _ =>
      match s.xembedInfo with
      | some info =>
          .ok s
            [Action.sendXEmbed s.plugWindow s.xEmbedAtom XEMBED_WINDOW_ACTIVATE
              0 s.plugParentWindow info.version] false
      | none => .ok s [] false
  | .focusOut _ =>
      match s.xembedInfo with
      | some info =>
          .ok s
            [Action.sendXEmbed s.plugWindow s.xEmbedAtom
              XEMBED_WINDOW_DEACTIVATE 0 s.plugParentWindow info.version] false
      | none => .ok s [] false
  | .resizeRequest w width height =>
      if w = s.xWindow then
        let request : Size := ⟨width, height⟩
        if s.mCurrentSize ≠ request then
          let r := s.resize (env.constrainSize request) true
          .ok r.1 r.2 true
        else .ok s [] true
      else .ok s [] false
  | .propertyNotify _ _ => .ok s [] false
  | .createNotify _ _ => .ok s [] false

/-- Method `X11Window::Impl::handlePlugEvent`, case by case.  In the `ClientMessage`
`XEMBED_REQUEST_FOCUS` arm the C code reads `xembedInfo->version`; with a null
`xembedInfo` that dereference happens before any message is sent, so it is a
`crash` with an empty trace.  In the `CreateNotify` arm a null property read,
an already-mapped child (`XEMBED_MAPPED` flag) and a failed
`assert (xEmbedAtom != None)` each `exit(-1)`. -/
def handlePlugEvent (env : Env) (s : ImplState) : XEvent → HandlerResult
  | .clientMessage _ messageType l1 =>
      if messageType = s.xEmbedAtom then
        if l1 = XEMBED_REQUEST_FOCUS then
          match s.xembedInfo with
          | none => .crash []
          | some info =>
              .ok s
                [Action.sendXEmbed s.plugWindow s.xEmbedAtom XEMBED_FOCUS_IN 0
                  s.plugParentWindow info.version] false
        else .ok s [] false
      else .ok s [] false
  | .propertyNotify _ _ => .ok s [] false
  | .createNotify parent w =>
      if parent ≠ s.plugParentWindow then .ok s [] true
      else
        let s1 := { s with plugWindow := w }
        let r := s1.getXEmbedInfo env
        let s2 := { r.1 with xembedInfo := r.2.2 }
        match r.2.2 with
        | none => .crash r.2.1
        | some info =>
            if info.flags &&& XEMBED_MAPPED ≠ 0 then .crash r.2.1
            else
              let s3 := if s2.xEmbedAtom = 0 then
                  { s2 with xEmbedAtom := env.xEmbedAtomValue } else s2
              if s3.xEmbedAtom = 0 then
                .crash (r.2.1 ++ [Action.registerWindowRunLoop w])
              else
                .ok s3
                  (r.2.1 ++
                    [Action.registerWindowRunLoop w,
                     Action.sendXEmbed w s3.xEmbedAtom XEMBED_EMBEDDED_NOTIFY 0
                       s3.plugParentWindow info.version,
                     Action.mapWindow w,
                     Action.resizeWindow w s3.mCurrentSize.width
                       s3.mCurrentSize.height,
                     Action.sendXEmbed w s3.xEmbedAtom XEMBED_WINDOW_ACTIVATE 0
                       s3.plugParentWindow info.version,
                     Action.sendXEmbed w s3.xEmbedAtom XEMBED_FOCUS_IN 0
                       s3.plugParentWindow info.version])
                  true
  | _ => .ok s [] false

/-- The parameters of `X11Window::Impl::init` that matter to it (the name and
controller have no modelled effect; `hasWindowClosedFunc` is whether the
`windowClosedFunc` callback is non-empty). -/
structure InitParams where
  size : Size
  resizeable : Bool
  hasWindowClosedFunc : Bool

/-- Outcome of `init`: `ok` is `return true`, `fail` is `return false`
(missing `_XEMBED_INFO` atom), `crash` is `exit(-1)` (no matching visual). -/
inductive InitResult where
  | ok (s : ImplState) (trace : List Action)
  | fail (trace : List Action)
  | crash (trace : List Action)
  deriving DecidableEq, Repr

/-- Recogniser for `InitResult.fail` (`init` returned `false`). -/
def InitResult.isFail : InitResult → Bool
  | .fail _ => true
  | _ => false

/-- Method `X11Window::Impl::init`: intern `_XEMBED_INFO` (fail when missing), match
a 24-bit TrueColor visual (`exit(-1)` when missing), create the main window
`xWindow` under the root, force-resize to the requested size, set input masks
/ WM properties / GC, create `plugParentWindow` as a child of `xWindow`, map
it, and register both windows' event callbacks with the run loop. -/
def ImplState.init (env : Env) (p : InitParams) : InitResult :=
  let s0 := { ImplState.initial with
    hasWindowClosedFunc := p.hasWindowClosedFunc
    xEmbedInfoAtom := env.xEmbedInfoAtomValue }
  if s0.xEmbedInfoAtom = 0 then .fail []
  else if !env.visualMatch then .crash []
  else
    let s1 := { s0 with xWindow := env.xWindowId }
    let r := s1.resize p.size true
    let s2 := { r.1 with plugParentWindow := env.plugParentWindowId }
    .ok s2
      ([Action.createWindow env.xWindowId env.rootWindow]
        ++ r.2
        ++ [Action.selectInput s1.xWindow,
            Action.setupWindowProperties s1.xWindow,
            Action.createWindow env.plugParentWindowId s1.xWindow,
            Action.selectInput s2.plugParentWindow,
            Action.mapWindow s2.plugParentWindow,
            Action.registerWindowRunLoop s2.plugParentWindow,
            Action.registerWindowRunLoop s2.xWindow])

/-- Function `X11Window::make`: construct a window, run `init`, and hand the window out
only when `init` returned `true`; otherwise return `nullptr`.  `exit(-1)`
inside `init` never returns at all and is kept as a distinct outcome. -/
def X11Window.make (env : Env) (p : InitParams) : InitResult :=
  ImplState.init env p

/-- Method `X11Window::Impl::registerEventHandler (handler, fd)`: reject a null
handler or an `fd` already present in `eventHandlers`; otherwise register the
descriptor with the run loop and record the mapping. -/
def ImplState.registerEventHandler (s : ImplState) (handler : Option Nat)
    (fd : Nat) : ImplState × List Action × Int :=
  match handler with
  | none => (s, [], kInvalidArgument)
  | some h =>
      if (s.eventHandlers.find? (fun p => p.1 == fd)).isSome then
        (s, [], kInvalidArgument)
      else
        ({ s with eventHandlers := s.eventHandlers ++ [(fd, h)] },
          [Action.registerFDRunLoop fd], kResultTrue)

/-- Method `X11Window::Impl::unregisterEventHandler (handler)`: reject a null
handler; scan `eventHandlers` for an entry holding this handler, and when one
is found unregister its descriptor from the run loop, erase that entry and
return `kResultTrue`; when none is found return `kResultFalse`. -/
def ImplState.unregisterEventHandler (s : ImplState) (handler : Option Nat) :
    ImplState × List Action × Int :=
  match handler with
  | none => (s, [], kInvalidArgument)
  | some h =>
      match s.eventHandlers.find? (fun p => p.2 == h) with
      | some e =>
          ({ s with
              eventHandlers := s.eventHandlers.eraseP (fun p => p.2 == h) },
            [Action.unregisterFDRunLoop e.1], kResultTrue)
      | none => (s, [], kResultFalse)

/-- Method `X11Window::Impl::registerTimer (handler, milliseconds)`: reject a null
handler or a zero interval; otherwise register the timer with the run loop
(which supplies the fresh `id`) and record `id ↦ handler` (an `emplace`, a
no-op when the id is already a key). -/
def ImplState.registerTimer (s : ImplState) (handler : Option Nat)
    (milliseconds : Nat) (id : Nat) : ImplState × List Action × Int :=
  match handler with
  | none => (s, [], kInvalidArgument)
  | some h =>
      if milliseconds = 0 then (s, [], kInvalidArgument)
      else
        ({ s with
            timerHandlers :=
              if (s.timerHandlers.find? (fun p => p.1 == id)).isSome then
                s.timerHandlers
              else s.timerHandlers ++ [(id, h)] },
          [Action.registerTimerRunLoop milliseconds], kResultTrue)

/-- Method `X11Window::Impl::unregisterTimer (handler)`: reject a null handler; scan
`timerHandlers` for an entry holding this handler, and when one is found
unregister its timer from the run loop, erase that entry and return
`kResultTrue`; when none is found return `kNotImplemented`. -/
def ImplState.unregisterTimer (s : ImplState) (handler : Option Nat) :
    ImplState × List Action × Int :=
  match handler with
  | none => (s, [], kInvalidArgument)
  | some h =>
      match s.timerHandlers.find? (fun p => p.2 == h) with
      | some e =>
          ({ s with
              timerHandlers := s.timerHandlers.eraseP (fun p => p.2 == h) },
            [Action.unregisterTimerRunLoop e.1], kResultTrue)
      | none => (s, [], kNotImplemented)

/-- Which of the two window callbacks the run loop invokes: `main` is the
callback registered for `xWindow` (`handleMainWindowEvent`), `plug` the one
registered for `plugParentWindow` / `plugWindow` (`handlePlugEvent`). -/
inductive Target where
  | main
  | plug
  deriving DecidableEq, Repr

/-- Dispatch one event to the selected handler. -/
def dispatch (env : Env) (s : ImplState) : Target → XEvent → HandlerResult
  | .main, e => handleMainWindowEvent env s e
  | .plug, e => handlePlugEvent env s e

/-- Outcome of a sequence of handler invocations: the final state and the
concatenated trace, or death part-way with the trace emitted until then. -/
inductive RunResult where
  | ok (s : ImplState) (trace : List Action)
  | crash (trace : List Action)
  deriving DecidableEq, Repr

/-- Run a list of `(target, event)` handler invocations in order, starting
from `s`, threading the state and accumulating the trace. -/
def runEvents (env : Env) (s : ImplState) :
    List (Target × XEvent) → RunResult
  | [] => .ok s []
  | te :: rest =>
      match dispatch env s te.1 te.2 with
      | .ok s' tr _ =>
          match runEvents env s' rest with
          | .ok s'' tr' => .ok s'' (tr ++ tr')
          | .crash tr' => .crash (tr ++ tr')
      | .crash tr => .crash tr

/-- A handler invocation that embeds: a `CreateNotify` whose parent field is
`ppw`, delivered to `handlePlugEvent`. -/
def isEmbedCreate (ppw : Nat) : Target × XEvent → Bool
  | (.plug, .createNotify parent _) => parent == ppw
  | _ => false

/-- Does an action send an XEMBED client message? -/
def Action.isSendXEmbed : Action → Bool
  | .sendXEmbed _ _ _ _ _ _ => true
  | _ => false

/-- Is an action an `XReparentWindow` call? -/
def Action.isReparent : Action → Bool
  | .reparentWindow _ _ => true
  | _ => false

/-- The trace carried by a `HandlerResult` (calls issued up to the return or
the death of the process). -/
def HandlerResult.trace : HandlerResult → List Action
  | .ok _ tr _ => tr
  | .crash tr => tr

/-- The trace carried by a `RunResult`. -/
def RunResult.trace : RunResult → List Action
  | .ok _ tr => tr
  | .crash tr => tr

/-- The handler returned normally and its final state satisfies `p`
(a crashed process has no final state to constrain). -/
def HandlerResult.finalSatisfies (p : ImplState → Prop) :
    HandlerResult → Prop
  | .ok s _ _ => p s
  | .crash _ => True

/-- The run finished normally and its final state satisfies `p`. -/
def RunResult.finalSatisfies (p : ImplState → Prop) : RunResult → Prop
  | .ok s _ => p s
  | .crash _ => True

/-- A concrete environment for witnesses: window `7` carries a valid
`_XEMBED_INFO` property (version 1, not mapped), both atoms exist. -/
def env0 : Env :=
  { getProp := fun w => if w = 7 then some ⟨1, 0⟩ else none
    constrainSize := fun sz => sz
    xEmbedInfoAtomValue := 10
    xEmbedAtomValue := 11
    visualMatch := true
    rootWindow := 1
    xWindowId := 2
    plugParentWindowId := 3 }

/-- A concrete post-`init` state: main window `2`, plug parent `3`, the
`_XEMBED_INFO` atom interned, no plug window yet. -/
def s0 : ImplState :=
  { ImplState.initial with
    xWindow := 2
    plugParentWindow := 3
    xEmbedInfoAtom := 10
    mCurrentSize := ⟨640, 480⟩ }

/-- A concrete post-embed state: plug window `7` embedded, `_XEMBED` atom
interned, `xembedInfo` read. -/
def s1 : ImplState :=
  { s0 with plugWindow := 7, xembedInfo := some ⟨1, 0⟩, xEmbedAtom := 11 }

/-- A concrete event sequence containing no embedding `CreateNotify`: focus
changes, a foreign client message on the plug side, a map of the main window,
and a `CreateNotify` under a foreign parent. -/
def evs0 : List (Target × XEvent) :=
  [(.main, .focusIn 2), (.plug, .clientMessage 3 10 1), (.main, .mapNotify 2),
   (.plug, .createNotify 99 7), (.main, .focusOut 2)]

/-- Evaluation of the embedding arm of `handlePlugEvent`: a `CreateNotify`
whose parent is `plugParentWindow`, when the `_XEMBED_INFO` read succeeds
with an unmapped child and the `_XEMBED` atom resolves to `a ≠ None`, records
the plug window and info, and issues the read, the run-loop registration, the
`XEMBED_EMBEDDED_NOTIFY`, the map, the resize to `mCurrentSize`, the
`XEMBED_WINDOW_ACTIVATE` and the `XEMBED_FOCUS_IN`, in that order.  Shared
computation lemma; the claim-level statements instantiate it. -/
lemma embed_eq (env : Env) (s : ImplState) (w : Nat) (info : XEmbedInfo)
    (a : Nat) (hAtomI : s.xEmbedInfoAtom ≠ 0)
    (hProp : env.getProp w = some info)
    (hNotMapped : info.flags &&& XEMBED_MAPPED = 0)
    (hA : (if s.xEmbedAtom = 0 then env.xEmbedAtomValue else s.xEmbedAtom) = a)
    (hA0 : a ≠ 0) :
    handlePlugEvent env s (.createNotify s.plugParentWindow w) =
      .ok { s with plugWindow := w, xembedInfo := some info, xEmbedAtom := a }
        [Action.readXEmbedInfoProp w,
         Action.registerWindowRunLoop w,
         Action.sendXEmbed w a XEMBED_EMBEDDED_NOTIFY 0 s.plugParentWindow
           info.version,
         Action.mapWindow w,
         Action.resizeWindow w s.mCurrentSize.width s.mCurrentSize.height,
         Action.sendXEmbed w a XEMBED_WINDOW_ACTIVATE 0 s.plugParentWindow
           info.version,
         Action.sendXEmbed w a XEMBED_FOCUS_IN 0 s.plugParentWindow
           info.version]
        true := by
  have h2 : info.flags % 2 = 0 := by
    simpa [XEMBED_MAPPED, Nat.and_one_is_mod] using hNotMapped
  by_cases hz : s.xEmbedAtom = 0
  · simp only [hz, if_pos] at hA
    simp [handlePlugEvent, ImplState.getXEmbedInfo, hAtomI, hProp, hNotMapped,
      hz, hA, hA0, XEMBED_MAPPED, h2]
  · simp only [if_neg hz] at hA
    simp [handlePlugEvent, ImplState.getXEmbedInfo, hAtomI, hProp, hNotMapped,
      hz, hA, hA0, XEMBED_MAPPED, h2]

/-- C1: a `CreateNotify` whose parent is `plugParentWindow` makes
`handlePlugEvent` run the XEmbed handshake on the new window: it records it
as `plugWindow`, reads its `_XEMBED_INFO` property, registers it with the run
loop, sends `XEMBED_EMBEDDED_NOTIFY`, maps it, resizes it to `mCurrentSize`,
then sends `XEMBED_WINDOW_ACTIVATE` followed by `XEMBED_FOCUS_IN`, in that
order, and returns `true` (here under the handshake's success conditions: the
property read yields an unmapped `XEmbedInfo` and the `_XEMBED` atom resolves
to `a ≠ None`; otherwise the code exits the process). -/
theorem C1_embed_handshake (env : Env) (s : ImplState) (w : Nat)
    (info : XEmbedInfo) (a : Nat) (hAtomI : s.xEmbedInfoAtom ≠ 0)
    (hProp : env.getProp w = some info)
    (hNotMapped : info.flags &&& XEMBED_MAPPED = 0)
    (hA : (if s.xEmbedAtom = 0 then env.xEmbedAtomValue else s.xEmbedAtom) = a)
    (hA0 : a ≠ 0) :
    handlePlugEvent env s (.createNotify s.plugParentWindow w) =
      .ok { s with plugWindow := w, xembedInfo := some info, xEmbedAtom := a }
        [Action.readXEmbedInfoProp w,
         Action.registerWindowRunLoop w,
         Action.sendXEmbed w a XEMBED_EMBEDDED_NOTIFY 0 s.plugParentWindow
           info.version,
         Action.mapWindow w,
         Action.resizeWindow w s.mCurrentSize.width s.mCurrentSize.height,
         Action.sendXEmbed w a XEMBED_WINDOW_ACTIVATE 0 s.plugParentWindow
           info.version,
         Action.sendXEmbed w a XEMBED_FOCUS_IN 0 s.plugParentWindow
           info.version]
        true :=
  embed_eq env s w info a hAtomI hProp hNotMapped hA hA0

/-- C1 witness: the handshake theorem applied at the concrete environment
`env0`, state `s0` and new window `7`. -/
theorem C1_embed_handshake_witness :
    handlePlugEvent env0 s0 (.createNotify s0.plugParentWindow 7) =
      .ok s1
        [Action.readXEmbedInfoProp 7,
         Action.registerWindowRunLoop 7,
         Action.sendXEmbed 7 11 XEMBED_EMBEDDED_NOTIFY 0 s0.plugParentWindow 1,
         Action.mapWindow 7,
         Action.resizeWindow 7 s0.mCurrentSize.width s0.mCurrentSize.height,
         Action.sendXEmbed 7 11 XEMBED_WINDOW_ACTIVATE 0 s0.plugParentWindow 1,
         Action.sendXEmbed 7 11 XEMBED_FOCUS_IN 0 s0.plugParentWindow 1]
        true :=
  C1_embed_handshake env0 s0 7 ⟨1, 0⟩ 11 (by decide) (by decide) (by decide)
    (by decide) (by decide)

/-- C2 counterexample: at a concrete successful embedding (environment
`env0`, state `s0`, `CreateNotify` of window `7` under parent `3 =
plugParentWindow`), the handler runs the full handshake — its trace has seven
actions — yet no action in the trace is an `XReparentWindow` call, so the
embedding step contains no reparenting operation. -/
theorem C2_no_reparent_counterexample :
    (handlePlugEvent env0 s0 (.createNotify 3 7)).trace.length = 7 ∧
    (handlePlugEvent env0 s0
        (.createNotify 3 7)).trace.all (fun x => !x.isReparent) = true := by
  decide

/-- C2 amended: the embedding step performs no reparenting.  The plugin
window is created by the plugin directly as a child of `plugParentWindow`
(that is the `CreateNotify`'s parent field); the handler maps it and resizes
it inside the container, and its trace contains no `XReparentWindow` call. -/
theorem C2_embed_no_reparent (env : Env) (s : ImplState) (w : Nat)
    (info : XEmbedInfo) (a : Nat) (hAtomI : s.xEmbedInfoAtom ≠ 0)
    (hProp : env.getProp w = some info)
    (hNotMapped : info.flags &&& XEMBED_MAPPED = 0)
    (hA : (if s.xEmbedAtom = 0 then env.xEmbedAtomValue else s.xEmbedAtom) = a)
    (hA0 : a ≠ 0) :
    (handlePlugEvent env s
        (.createNotify s.plugParentWindow w)).trace.all
      (fun x => !x.isReparent) = true ∧
    Action.mapWindow w ∈
      (handlePlugEvent env s (.createNotify s.plugParentWindow w)).trace ∧
    Action.resizeWindow w s.mCurrentSize.width s.mCurrentSize.height ∈
      (handlePlugEvent env s (.createNotify s.plugParentWindow w)).trace := by
  rw [embed_eq env s w info a hAtomI hProp hNotMapped hA hA0]
  simp [HandlerResult.trace, Action.isReparent]

/-- C2 witness: the amended statement at the concrete embedding. -/
theorem C2_embed_no_reparent_witness :
    (handlePlugEvent env0 s0
        (.createNotify s0.plugParentWindow 7)).trace.all
      (fun x => !x.isReparent) = true ∧
    Action.mapWindow 7 ∈
      (handlePlugEvent env0 s0 (.createNotify s0.plugParentWindow 7)).trace ∧
    Action.resizeWindow 7 s0.mCurrentSize.width s0.mCurrentSize.height ∈
      (handlePlugEvent env0 s0 (.createNotify s0.plugParentWindow 7)).trace :=
  C2_embed_no_reparent env0 s0 7 ⟨1, 0⟩ 11 (by decide) (by decide) (by decide)
    (by decide) (by decide)

/-- C3: `handleMainWindowEvent` forwards `FocusIn` as
`XEMBED_WINDOW_ACTIVATE` and `FocusOut` as `XEMBED_WINDOW_DEACTIVATE` to
`plugWindow` exactly when `xembedInfo` is non-null; when it is null, no
message is sent and the state is unchanged (the state is unchanged in every
case). -/
theorem C3_focus_forwarding (env : Env) (s : ImplState) (w : Nat) :
    (∀ info, s.xembedInfo = some info →
      handleMainWindowEvent env s (.focusIn w) =
        .ok s
          [Action.sendXEmbed s.plugWindow s.xEmbedAtom XEMBED_WINDOW_ACTIVATE
            0 s.plugParentWindow info.version] false ∧
      handleMainWindowEvent env s (.focusOut w) =
        .ok s
          [Action.sendXEmbed s.plugWindow s.xEmbedAtom
            XEMBED_WINDOW_DEACTIVATE 0 s.plugParentWindow info.version]
          false) ∧
    (s.xembedInfo = none →
      handleMainWindowEvent env s (.focusIn w) = .ok s [] false ∧
      handleMainWindowEvent env s (.focusOut w) = .ok s [] false) := by
  refine ⟨fun info h => ?_, fun h => ?_⟩ <;>
    simp [handleMainWindowEvent, h]

/-- C3 witness: focus forwarding at the embedded state `s1` and the
pre-embed state `s0` (null `xembedInfo`). -/
theorem C3_focus_forwarding_witness :
    handleMainWindowEvent env0 s1 (.focusIn 2) =
      .ok s1
        [Action.sendXEmbed s1.plugWindow s1.xEmbedAtom XEMBED_WINDOW_ACTIVATE
          0 s1.plugParentWindow 1] false ∧
    handleMainWindowEvent env0 s0 (.focusIn 2) = .ok s0 [] false :=
  ⟨((C3_focus_forwarding env0 s1 2).1 ⟨1, 0⟩ (by decide)).1,
   ((C3_focus_forwarding env0 s0 2).2 (by decide)).1⟩

/-- C4: a `CreateNotify` whose parent is not `plugParentWindow` leaves the
whole state unchanged — in particular `plugWindow` and `xembedInfo` — issues
no call at all, and returns `true`: only windows created under
`plugParentWindow` are ever embedded. -/
theorem C4_create_other_parent_ignored (env : Env) (s : ImplState)
    (parent w : Nat) (h : parent ≠ s.plugParentWindow) :
    handlePlugEvent env s (.createNotify parent w) = .ok s [] true := by
  simp [handlePlugEvent, h]

/-- C4 witness: a `CreateNotify` under the foreign parent `99` at `s0`. -/
theorem C4_create_other_parent_ignored_witness :
    handlePlugEvent env0 s0 (.createNotify 99 7) = .ok s0 [] true :=
  C4_create_other_parent_ignored env0 s0 99 7 (by decide)

/-- C6: a `ClientMessage` whose `message_type` is the `_XEMBED` atom and
whose `data.l[1]` opcode is `XEMBED_REQUEST_FOCUS` makes `handlePlugEvent`
reply with an `XEMBED_FOCUS_IN` message to `plugWindow` (stated for a
non-null `xembedInfo`, which holds in every state reached after the atom was
interned; with a null `xembedInfo` the code would dereference null instead of
sending). -/
theorem C6_request_focus_reply (env : Env) (s : ImplState) (w : Nat)
    (info : XEmbedInfo) (hinfo : s.xembedInfo = some info) :
    handlePlugEvent env s
        (.clientMessage w s.xEmbedAtom XEMBED_REQUEST_FOCUS) =
      .ok s
        [Action.sendXEmbed s.plugWindow s.xEmbedAtom XEMBED_FOCUS_IN 0
          s.plugParentWindow info.version] false := by
  simp [handlePlugEvent, hinfo, XEMBED_REQUEST_FOCUS]

/-- C6 witness: the focus-request reply at the embedded state `s1`. -/
theorem C6_request_focus_reply_witness :
    handlePlugEvent env0 s1
        (.clientMessage 7 s1.xEmbedAtom XEMBED_REQUEST_FOCUS) =
      .ok s1
        [Action.sendXEmbed s1.plugWindow s1.xEmbedAtom XEMBED_FOCUS_IN 0
          s1.plugParentWindow 1] false :=
  C6_request_focus_reply env0 s1 7 ⟨1, 0⟩ (by decide)

/-- One dispatched event that is not an embedding `CreateNotify`, starting
from a state with null `xembedInfo`: the handler sends no XEMBED message and,
on normal return, preserves the null `xembedInfo`, `plugWindow` and
`plugParentWindow`. -/
lemma dispatch_no_embed (env : Env) (s : ImplState) (t : Target) (e : XEvent)
    (hinfo : s.xembedInfo = none)
    (hne : isEmbedCreate s.plugParentWindow (t, e) = false) :
    (dispatch env s t e).trace.all (fun a => !a.isSendXEmbed) = true ∧
    (dispatch env s t e).finalSatisfies (fun s' =>
      s'.xembedInfo = none ∧ s'.plugWindow = s.plugWindow ∧
      s'.plugParentWindow = s.plugParentWindow) := by
  cases t with
  | main =>
      cases e with
      | expose w count =>
          by_cases hc : count = 0 <;>
            simp [dispatch, handleMainWindowEvent, hc, HandlerResult.trace,
              HandlerResult.finalSatisfies, Action.isSendXEmbed, hinfo]
      | configureNotify w width height =>
          by_cases h1 : w = s.xWindow
          · simp only [dispatch, handleMainWindowEvent, h1]
            split_ifs <;>
              simp_all [ImplState.resize, HandlerResult.trace,
                HandlerResult.finalSatisfies, Action.isSendXEmbed, hinfo]
          · simp [dispatch, handleMainWindowEvent, h1, HandlerResult.trace,
              HandlerResult.finalSatisfies, hinfo]
      | mapNotify w =>
          simp only [dispatch, handleMainWindowEvent]
          split_ifs <;>
            simp_all [HandlerResult.trace, HandlerResult.finalSatisfies,
              Action.isSendXEmbed, hinfo]
      | unmapNotify w =>
          simp only [dispatch, handleMainWindowEvent]
          split_ifs <;>
            simp_all [ImplState.onClose, HandlerResult.trace,
              HandlerResult.finalSatisfies, Action.isSendXEmbed, hinfo]
      | destroyNotify w =>
          simp [dispatch, handleMainWindowEvent, HandlerResult.trace,
            HandlerResult.finalSatisfies, hinfo]
      | clientMessage w mt l1 =>
          simp only [dispatch, handleMainWindowEvent]
          split_ifs <;>
            simp_all [ImplState.onClose, HandlerResult.trace,
              HandlerResult.finalSatisfies, Action.isSendXEmbed, hinfo]
      | focusIn w =>
          simp [dispatch, handleMainWindowEvent, HandlerResult.trace,
            HandlerResult.finalSatisfies, hinfo]
      | focusOut w =>
          simp [dispatch, handleMainWindowEvent, HandlerResult.trace,
            HandlerResult.finalSatisfies, hinfo]
      | resizeRequest w width height =>
          simp only [dispatch, handleMainWindowEvent]
          split_ifs <;>
            simp_all [ImplState.resize, HandlerResult.trace,
              HandlerResult.finalSatisfies, Action.isSendXEmbed, hinfo]
      | propertyNotify w a =>
          simp [dispatch, handleMainWindowEvent, HandlerResult.trace,
            HandlerResult.finalSatisfies, hinfo]
      | createNotify parent w =>
          simp [dispatch, handleMainWindowEvent, HandlerResult.trace,
            HandlerResult.finalSatisfies, hinfo]
  | plug =>
      cases e with
      | clientMessage w mt l1 =>
          simp only [dispatch, handlePlugEvent]
          split_ifs <;>
            simp_all [HandlerResult.trace, HandlerResult.finalSatisfies,
              Action.isSendXEmbed, hinfo]
      | propertyNotify w a =>
          simp [dispatch, handlePlugEvent, HandlerResult.trace,
            HandlerResult.finalSatisfies, hinfo]
      | createNotify parent w =>
          have hp : parent ≠ s.plugParentWindow := by
            simpa [isEmbedCreate] using hne
          simp [dispatch, handlePlugEvent, hp, HandlerResult.trace,
            HandlerResult.finalSatisfies, hinfo]
      | expose w count =>
          simp [dispatch, handlePlugEvent, HandlerResult.trace,
            HandlerResult.finalSatisfies, hinfo]
      | configureNotify w width height =>
          simp [dispatch, handlePlugEvent, HandlerResult.trace,
            HandlerResult.finalSatisfies, hinfo]
      | mapNotify w =>
          simp [dispatch, handlePlugEvent, HandlerResult.trace,
            HandlerResult.finalSatisfies, hinfo]
      | unmapNotify w =>
          simp [dispatch, handlePlugEvent, HandlerResult.trace,
            HandlerResult.finalSatisfies, hinfo]
      | destroyNotify w =>
          simp [dispatch, handlePlugEvent, HandlerResult.trace,
            HandlerResult.finalSatisfies, hinfo]
      | focusIn w =>
          simp [dispatch, handlePlugEvent, HandlerResult.trace,
            HandlerResult.finalSatisfies, hinfo]
      | focusOut w =>
          simp [dispatch, handlePlugEvent, HandlerResult.trace,
            HandlerResult.finalSatisfies, hinfo]
      | resizeRequest w width height =>
          simp [dispatch, handlePlugEvent, HandlerResult.trace,
            HandlerResult.finalSatisfies, hinfo]

/-- Invariant of `runEvents`: as long as no embedding `CreateNotify` is
dispatched, a run from a state with null `xembedInfo` sends no XEMBED message
and preserves the null `xembedInfo`, `plugWindow` and `plugParentWindow`. -/
lemma runEvents_no_embed (env : Env) (evs : List (Target × XEvent)) :
    ∀ s : ImplState, s.xembedInfo = none →
      evs.all (fun te => !isEmbedCreate s.plugParentWindow te) = true →
      (runEvents env s evs).trace.all (fun a => !a.isSendXEmbed) = true ∧
      (runEvents env s evs).finalSatisfies (fun s' =>
        s'.xembedInfo = none ∧ s'.plugWindow = s.plugWindow ∧
        s'.plugParentWindow = s.plugParentWindow) := by
  induction evs with
  | nil =>
      intro s hinfo _
      simp [runEvents, RunResult.trace, RunResult.finalSatisfies, hinfo]
  | cons te rest ih =>
      intro s hinfo hall
      simp only [List.all_cons, Bool.and_eq_true] at hall
      obtain ⟨h1, h2⟩ := hall
      have step := dispatch_no_embed env s te.1 te.2 hinfo (by simpa using h1)
      cases hd : dispatch env s te.1 te.2 with
      | crash tr =>
          rw [hd] at step
          constructor
          · simpa [runEvents, hd, RunResult.trace, HandlerResult.trace]
              using step.1
          · simp [runEvents, hd, RunResult.finalSatisfies]
      | ok s' tr r =>
          rw [hd] at step
          obtain ⟨htr, hs'⟩ := step
          simp only [HandlerResult.trace] at htr
          simp only [HandlerResult.finalSatisfies] at hs'
          obtain ⟨hinfo', hpw', hppw'⟩ := hs'
          have ih' := ih s' hinfo' (by rw [hppw']; exact h2)
          cases hrest : runEvents env s' rest with
          | ok s'' tr' =>
              rw [hrest] at ih'
              simp only [RunResult.trace, RunResult.finalSatisfies] at ih'
              simp [runEvents, hd, hrest, RunResult.trace,
                RunResult.finalSatisfies, List.all_append, htr, ih'.1,
                ih'.2.1, hpw' ▸ ih'.2.2.1, hppw' ▸ ih'.2.2.2]
          | crash tr' =>
              rw [hrest] at ih'
              simp only [RunResult.trace, RunResult.finalSatisfies] at ih'
              simp [runEvents, hd, hrest, RunResult.trace,
                RunResult.finalSatisfies, List.all_append, htr, ih'.1]

/-- C5: until a `CreateNotify` with parent `plugParentWindow` has been
handled, `plugWindow` remains `0`, `xembedInfo` remains null, and no XEMBED
message is sent to the plugin window: a run of any event sequence free of
embedding `CreateNotify`s, from a state with `plugWindow = 0` and null
`xembedInfo`, emits no `send_xembed_message` call and ends (when it returns)
with `plugWindow = 0` and `xembedInfo` still null. -/
theorem C5_wait_before_embed (env : Env) (s : ImplState)
    (evs : List (Target × XEvent)) (hpw : s.plugWindow = 0)
    (hinfo : s.xembedInfo = none)
    (hevs : evs.all (fun te => !isEmbedCreate s.plugParentWindow te) = true) :
    (runEvents env s evs).trace.all (fun a => !a.isSendXEmbed) = true ∧
    (runEvents env s evs).finalSatisfies
      (fun s' => s'.plugWindow = 0 ∧ s'.xembedInfo = none) := by
  obtain ⟨h1, h2⟩ := runEvents_no_embed env evs s hinfo hevs
  refine ⟨h1, ?_⟩
  cases hr : runEvents env s evs with
  | ok s'' tr =>
      rw [hr] at h2
      simp only [RunResult.finalSatisfies] at h2 ⊢
      exact ⟨h2.2.1.trans hpw, h2.1⟩
  | crash tr => simp [RunResult.finalSatisfies]

/-- C5 witness: the no-embed run invariant at the concrete sequence `evs0`
from the post-`init` state `s0`. -/
theorem C5_wait_before_embed_witness :
    (runEvents env0 s0 evs0).trace.all (fun a => !a.isSendXEmbed) = true ∧
    (runEvents env0 s0 evs0).finalSatisfies
      (fun s' => s'.plugWindow = 0 ∧ s'.xembedInfo = none) :=
  C5_wait_before_embed env0 s0 evs0 (by decide) (by decide) (by decide)

/-- C7: `init` returns `false` (so `make` returns `nullptr`) exactly when the
`_XEMBED_INFO` atom does not exist; `make` hands out the window `init`
succeeded on; and a successful `init` (atom present, a matching visual, a
non-`None` window id) creates the main window under the root and
`plugParentWindow` nested inside it, registers both windows' callbacks with
the run loop, and returns `true`. -/
theorem C7_init_make (env : Env) (p : InitParams) :
    ((ImplState.init env p).isFail = true ↔ env.xEmbedInfoAtomValue = 0) ∧
    X11Window.make env p = ImplState.init env p ∧
    (env.xEmbedInfoAtomValue ≠ 0 → env.visualMatch = true →
      env.xWindowId ≠ 0 →
      ImplState.init env p =
        .ok
          { ImplState.initial with
            hasWindowClosedFunc := p.hasWindowClosedFunc
            xEmbedInfoAtom := env.xEmbedInfoAtomValue
            xWindow := env.xWindowId
            mCurrentSize := p.size
            plugParentWindow := env.plugParentWindowId }
          [Action.createWindow env.xWindowId env.rootWindow,
           Action.resizeWindow env.xWindowId p.size.width p.size.height,
           Action.selectInput env.xWindowId,
           Action.setupWindowProperties env.xWindowId,
           Action.createWindow env.plugParentWindowId env.xWindowId,
           Action.selectInput env.plugParentWindowId,
           Action.mapWindow env.plugParentWindowId,
           Action.registerWindowRunLoop env.plugParentWindowId,
           Action.registerWindowRunLoop env.xWindowId]) := by
  refine ⟨?_, rfl, ?_⟩
  · by_cases h0 : env.xEmbedInfoAtomValue = 0
    · simp [ImplState.init, h0, InitResult.isFail]
    · cases hv : env.visualMatch <;>
        simp [ImplState.init, h0, hv, InitResult.isFail]
  · intro h0 hv hw
    simp [ImplState.init, h0, hv, hw, ImplState.resize, ImplState.initial]

/-- C7 witness: `init` at `env0` yields the post-`init` state `s0` with the
expected construction trace. -/
theorem C7_init_make_witness :
    ImplState.init env0 ⟨⟨640, 480⟩, false, false⟩ =
      .ok s0
        [Action.createWindow 2 1,
         Action.resizeWindow 2 640 480,
         Action.selectInput 2,
         Action.setupWindowProperties 2,
         Action.createWindow 3 2,
         Action.selectInput 3,
         Action.mapWindow 3,
         Action.registerWindowRunLoop 3,
         Action.registerWindowRunLoop 2] :=
  (C7_init_make env0 ⟨⟨640, 480⟩, false, false⟩).2.2 (by decide) (by decide)
    (by decide)

/-- C8: `registerEventHandler` returns `kInvalidArgument` iff the handler is
null or the descriptor is already registered, and otherwise records
`fd ↦ handler`, registers the descriptor with the run loop and returns
`kResultTrue`; `registerTimer` returns `kInvalidArgument` iff the handler is
null or the interval is `0`, and otherwise registers the timer with the run
loop, records `id ↦ handler` and returns `kResultTrue`. -/
theorem C8_register_spec (s : ImplState) (handler : Option Nat)
    (fd ms id : Nat) :
    ((s.registerEventHandler handler fd).2.2 = kInvalidArgument ↔
      handler = none ∨
        (s.eventHandlers.find? (fun q => q.1 == fd)).isSome = true) ∧
    (∀ h, handler = some h →
      s.eventHandlers.find? (fun q => q.1 == fd) = none →
      s.registerEventHandler handler fd =
        ({ s with eventHandlers := s.eventHandlers ++ [(fd, h)] },
          [Action.registerFDRunLoop fd], kResultTrue)) ∧
    ((s.registerTimer handler ms id).2.2 = kInvalidArgument ↔
      handler = none ∨ ms = 0) ∧
    (∀ h, handler = some h → ms ≠ 0 →
      s.registerTimer handler ms id =
        ({ s with
            timerHandlers :=
              if (s.timerHandlers.find? (fun q => q.1 == id)).isSome then
                s.timerHandlers
              else s.timerHandlers ++ [(id, h)] },
          [Action.registerTimerRunLoop ms], kResultTrue)) := by
  refine ⟨?_, ?_, ?_, ?_⟩
  · cases handler with
    | none => simp [ImplState.registerEventHandler, kInvalidArgument]
    | some h =>
        by_cases hf : (s.eventHandlers.find? (fun q => q.1 == fd)).isSome <;>
          simp [ImplState.registerEventHandler, hf, kInvalidArgument,
            kResultTrue]
  · intro h hh hf
    subst hh
    simp [ImplState.registerEventHandler, hf]
  · cases handler with
    | none => simp [ImplState.registerTimer, kInvalidArgument]
    | some h =>
        by_cases hm : ms = 0 <;>
          simp [ImplState.registerTimer, hm, kInvalidArgument, kResultTrue]
  · intro h hh hm
    subst hh
    simp [ImplState.registerTimer, hm]

/-- C8 witness: at `s0` (both maps empty), registering a non-null handler for
a fresh descriptor and a non-null timer handler with a non-zero interval both
succeed, and the null/zero rejections hold. -/
theorem C8_register_spec_witness :
    (s0.registerEventHandler (some 5) 4 =
      ({ s0 with eventHandlers := [(4, 5)] },
        [Action.registerFDRunLoop 4], kResultTrue)) ∧
    (s0.registerTimer (some 5) 30 1 =
      ({ s0 with timerHandlers := [(1, 5)] },
        [Action.registerTimerRunLoop 30], kResultTrue)) ∧
    ((s0.registerEventHandler none 4).2.2 = kInvalidArgument) ∧
    ((s0.registerTimer (some 5) 0 1).2.2 = kInvalidArgument) :=
  ⟨(C8_register_spec s0 (some 5) 4 30 1).2.1 5 rfl (by decide),
   (C8_register_spec s0 (some 5) 4 30 1).2.2.2 5 rfl (by decide),
   ((C8_register_spec s0 none 4 30 1).1).2 (Or.inl rfl),
   ((C8_register_spec s0 (some 5) 4 0 1).2.2.1).2 (Or.inr rfl)⟩

/-- C9: unregistering a handler that is not in the map leaves the state
unchanged and fails with asymmetric codes — `kResultFalse` for an unknown
non-null event handler, `kNotImplemented` for an unknown non-null timer
handler — while for a registered handler both unregister the key from the
run loop, erase exactly the first entry holding the handler and return
`kResultTrue`. -/
theorem C9_unregister_spec (s : ImplState) (h : Nat) :
    (s.eventHandlers.find? (fun q => q.2 == h) = none →
      s.unregisterEventHandler (some h) = (s, [], kResultFalse)) ∧
    (s.timerHandlers.find? (fun q => q.2 == h) = none →
      s.unregisterTimer (some h) = (s, [], kNotImplemented)) ∧
    (∀ e, s.eventHandlers.find? (fun q => q.2 == h) = some e →
      s.unregisterEventHandler (some h) =
        ({ s with
            eventHandlers := s.eventHandlers.eraseP (fun q => q.2 == h) },
          [Action.unregisterFDRunLoop e.1], kResultTrue) ∧
      ∃ x l₁ l₂, (∀ b ∈ l₁, ¬(b.2 == h) = true) ∧ (x.2 == h) = true ∧
        s.eventHandlers = l₁ ++ x :: l₂ ∧
        (s.unregisterEventHandler (some h)).1.eventHandlers = l₁ ++ l₂) ∧
    (∀ e, s.timerHandlers.find? (fun q => q.2 == h) = some e →
      s.unregisterTimer (some h) =
        ({ s with
            timerHandlers := s.timerHandlers.eraseP (fun q => q.2 == h) },
          [Action.unregisterTimerRunLoop e.1], kResultTrue) ∧
      ∃ x l₁ l₂, (∀ b ∈ l₁, ¬(b.2 == h) = true) ∧ (x.2 == h) = true ∧
        s.timerHandlers = l₁ ++ x :: l₂ ∧
        (s.unregisterTimer (some h)).1.timerHandlers = l₁ ++ l₂) := by
  refine ⟨?_, ?_, ?_, ?_⟩
  · intro hf; simp [ImplState.unregisterEventHandler, hf]
  · intro hf; simp [ImplState.unregisterTimer, hf]
  · intro e hf
    have heq : s.unregisterEventHandler (some h) =
        ({ s with
            eventHandlers := s.eventHandlers.eraseP (fun q => q.2 == h) },
          [Action.unregisterFDRunLoop e.1], kResultTrue) := by
      simp [ImplState.unregisterEventHandler, hf]
    refine ⟨heq, ?_⟩
    obtain ⟨x, l₁, l₂, hl₁, hx, hsplit, herase⟩ :=
      List.exists_of_eraseP (List.mem_of_find?_eq_some hf)
        (List.find?_some hf)
    exact ⟨x, l₁, l₂, fun b hb => by simpa using hl₁ b hb, hx, hsplit,
      by rw [heq]; exact herase⟩
  · intro e hf
    have heq : s.unregisterTimer (some h) =
        ({ s with
            timerHandlers := s.timerHandlers.eraseP (fun q => q.2 == h) },
          [Action.unregisterTimerRunLoop e.1], kResultTrue) := by
      simp [ImplState.unregisterTimer, hf]
    refine ⟨heq, ?_⟩
    obtain ⟨x, l₁, l₂, hl₁, hx, hsplit, herase⟩ :=
      List.exists_of_eraseP (List.mem_of_find?_eq_some hf)
        (List.find?_some hf)
    exact ⟨x, l₁, l₂, fun b hb => by simpa using hl₁ b hb, hx, hsplit,
      by rw [heq]; exact herase⟩

/-- C9 witness: unknown handlers fail with `kResultFalse` / `kNotImplemented`
leaving `s0` unchanged, and a handler registered at `s1` with one entry in
each map is removed with `kResultTrue`. -/
theorem C9_unregister_spec_witness :
    s0.unregisterEventHandler (some 5) = (s0, [], kResultFalse) ∧
    s0.unregisterTimer (some 5) = (s0, [], kNotImplemented) ∧
    ({ s1 with eventHandlers := [(4, 5)] }.unregisterEventHandler (some 5) =
      ({ s1 with eventHandlers := [] },
        [Action.unregisterFDRunLoop 4], kResultTrue)) ∧
    ({ s1 with timerHandlers := [(1, 5)] }.unregisterTimer (some 5) =
      ({ s1 with timerHandlers := [] },
        [Action.unregisterTimerRunLoop 1], kResultTrue)) :=
  ⟨(C9_unregister_spec s0 5).1 (by decide),
   (C9_unregister_spec s0 5).2.1 (by decide),
   ((C9_unregister_spec { s1 with eventHandlers := [(4, 5)] } 5).2.2.1
      (4, 5) (by decide)).1,
   ((C9_unregister_spec { s1 with timerHandlers := [(1, 5)] } 5).2.2.2
      (1, 5) (by decide)).1⟩

/-- C10: `controller->onShow` fires at most once per mapped period: a
`MapNotify` for the main window calls `onShow` and sets `isMapped` only when
`isMapped` is false; when `isMapped` is already true it does nothing; two
consecutive `MapNotify` events from an unmapped state therefore produce
exactly one `onShow`; and `onClose` resets `isMapped` to false. -/
theorem C10_onShow_once (env : Env) (s : ImplState) :
    (s.isMapped = false →
      handleMainWindowEvent env s (.mapNotify s.xWindow) =
        .ok { s with isMapped := true } [Action.onShowCb] true) ∧
    (s.isMapped = true →
      handleMainWindowEvent env s (.mapNotify s.xWindow) = .ok s [] false) ∧
    (s.isMapped = false →
      (runEvents env s [(.main, .mapNotify s.xWindow),
        (.main, .mapNotify s.xWindow)]).trace = [Action.onShowCb]) ∧
    s.onClose.1.isMapped = false := by
  refine ⟨fun hm => ?_, fun hm => ?_, fun hm => ?_, ?_⟩
  · simp [handleMainWindowEvent, hm]
  · simp [handleMainWindowEvent, hm]
  · simp [runEvents, dispatch, handleMainWindowEvent, hm, RunResult.trace]
  · simp [ImplState.onClose]

/-- C10 witness: the map-once behaviour at the unmapped state `s0` and the
mapped state `{ s0 with isMapped := true }`. -/
theorem C10_onShow_once_witness :
    (runEvents env0 s0 [(.main, .mapNotify s0.xWindow),
      (.main, .mapNotify s0.xWindow)]).trace = [Action.onShowCb] ∧
    handleMainWindowEvent env0 { s0 with isMapped := true }
        (.mapNotify s0.xWindow) =
      .ok { s0 with isMapped := true } [] false :=
  ⟨(C10_onShow_once env0 s0).2.2.1 (by decide),
   (C10_onShow_once env0 { s0 with isMapped := true }).2.1 (by decide)⟩

end Kodo
